import Mathlib

/-!
# Verification of the Halo-Engine flight-data aggregation engine

Shallow embedding of the flight-tracking service
(`src/services/flightTrackingService` — the `FlightTrackingService` class)
and its reference registries (`airlineDatabase`, `aircraftDatabase`,
`airportDatabase`, `routeDatabase`).

Modelling conventions, matching the JavaScript source:

* JS numbers are modelled as `ℚ` (timestamps are milliseconds since epoch).
  Floating-point transcendental computations (the haversine distance) and the
  local-calendar `Date` arithmetic used for the monthly quota reset are
  modelled as oracle functions carried in an `Ext` record: no claim depends on
  their values.
* Each `Math.random()` call site reads a dedicated field of the `Ext` record.
* JS `null`/`undefined` are both `Option.none`; JS truthiness of strings is
  `≠ ""`, of numbers `≠ 0`, of `Option` values "is `some` and truthy".
* Network I/O is modelled by per-request oracles: the `i`-th OpenSky
  `/states/all` request returns `states i`, the `i`-th AviationStack request
  of a lookup returns `avN i` / `avO i`.
* All functions are total: the JS code catches every exception internally,
  and `getFlightInfo`'s `catch` branch is embedded explicitly.
-/

/- Batteries marks the `Rat` field operations `@[irreducible]`; restore the
default reducibility so that concrete runs of the model reduce under
`decide`/`rfl` (this does not change any definition, only unfolding). -/
set_option allowUnsafeReducibility true
attribute [semireducible] Rat.add Rat.mul Rat.sub Rat.inv

namespace HaloEngine

/-- `String.prototype.toUpperCase()` (ASCII mapping; identifiers here are
ASCII). List-based so that it reduces in the kernel. -/
def jsToUpper (s : String) : String := String.mk (s.toList.map Char.toUpper)

/-- `String.prototype.trim()`. -/
def jsTrim (s : String) : String :=
  String.mk (((s.toList.dropWhile Char.isWhitespace).reverse.dropWhile
    Char.isWhitespace).reverse)

/-- `String.prototype.substring(0, n)`. -/
def jsTake (s : String) (n : Nat) : String := String.mk (s.toList.take n)

/-- `String.prototype.substring(n)`. -/
def jsDrop (s : String) (n : Nat) : String := String.mk (s.toList.drop n)

/-- `String.prototype.length`. -/
def jsLen (s : String) : Nat := s.toList.length

/-- `String.prototype.startsWith(p)`. -/
def jsStartsWith (s p : String) : Bool := p.toList.isPrefixOf s.toList

/-- JS truthiness of a possibly-absent number (`null`, `undefined`, `0` are falsy). -/
def qTruthy : Option ℚ → Bool
  | none => false
  | some q => q ≠ 0

/-- JS truthiness of a possibly-absent string (`null`, `undefined`, `""` are falsy). -/
def sTruthy : Option String → Bool
  | none => false
  | some s => s ≠ ""

/-- JS truthiness of a possibly-absent boolean. -/
def bTruthy : Option Bool → Bool
  | none => false
  | some b => b

/-- `Math.floor` on a JS number (`Int.fdiv` on the normalized fraction is
exactly the floor, and reduces in the kernel). -/
def jsFloor (q : ℚ) : ℤ := Int.fdiv q.num q.den

/-- `Math.round` on a JS number (half-way cases round toward `+∞`). -/
def jsRound (q : ℚ) : ℤ := ⌊q + 1/2⌋

/-- `a || b` for possibly-absent numbers. -/
def qOr (a b : Option ℚ) : Option ℚ := if qTruthy a then a else b

/-- `a || null` for a possibly-absent number (so `some 0` collapses to `none`). -/
def qOrNull (a : Option ℚ) : Option ℚ := if qTruthy a then a else none

/-- `a || null` for a possibly-absent string (so `some ""` collapses to `none`). -/
def sOrNull (a : Option String) : Option String := if sTruthy a then a else none

/-- `a || b` for possibly-absent strings. -/
def sOr (a b : Option String) : Option String := if sTruthy a then a else b

/-- `d && now > d`: comparison against a date that may be absent/invalid
(comparisons against an Invalid Date are `false` in JS). -/
def qGtO (now : ℚ) (d : Option ℚ) : Bool :=
  match d with
  | some v => v < now
  | none => false

/-- `d && now < d` with the same Invalid-Date convention. -/
def qLtO (now : ℚ) (d : Option ℚ) : Bool :=
  match d with
  | some v => now < v
  | none => false

/-- A character in the JS class `[A-Z]`. -/
def isUpperAZ (c : Char) : Bool := 'A' ≤ c && c ≤ 'Z'

/-- A character in the JS class `[0-9]`. -/
def isDigit09 (c : Char) : Bool := '0' ≤ c && c ≤ '9'

/-- Contiguous-sublist test on character lists. -/
def listInfix (needle : List Char) : List Char → Bool
  | [] => needle.isEmpty
  | c :: t => needle.isPrefixOf (c :: t) || listInfix needle t

/-- `s.toUpperCase().includes(t.toUpperCase())` substring test. -/
def containsUpper (hay needle : String) : Bool :=
  listInfix ((jsToUpper needle).toList) ((jsToUpper hay).toList)

/-! ## Airline registry (`airlineDatabase.js`) -/

structure AirlineRec where
  iata : String
  icao : String
  name : String
  country : String
deriving Repr, DecidableEq

/-- The literal `airlineData` table of `airlineDatabase.initializeDatabase`. -/
def airlineData : List AirlineRec := [
  ⟨"AI", "AIC", "Air India", "India"⟩,
  ⟨"6E", "IGO", "IndiGo", "India"⟩,
  ⟨"SG", "SEJ", "SpiceJet", "India"⟩,
  ⟨"UK", "VTI", "Vistara", "India"⟩,
  ⟨"G8", "GOW", "GoAir", "India"⟩,
  ⟨"IX", "AXB", "Air India Express", "India"⟩,
  ⟨"I5", "IAD", "AirAsia India", "India"⟩,
  ⟨"EK", "UAE", "Emirates", "United Arab Emirates"⟩,
  ⟨"QR", "QTR", "Qatar Airways", "Qatar"⟩,
  ⟨"EY", "ETD", "Etihad Airways", "United Arab Emirates"⟩,
  ⟨"SV", "SVA", "Saudia", "Saudi Arabia"⟩,
  ⟨"GF", "GFA", "Gulf Air", "Bahrain"⟩,
  ⟨"LH", "DLH", "Lufthansa", "Germany"⟩,
  ⟨"BA", "BAW", "British Airways", "United Kingdom"⟩,
  ⟨"AF", "AFR", "Air France", "France"⟩,
  ⟨"KL", "KLM", "KLM Royal Dutch Airlines", "Netherlands"⟩,
  ⟨"LX", "SWR", "Swiss International Air Lines", "Switzerland"⟩,
  ⟨"OS", "AUA", "Austrian Airlines", "Austria"⟩,
  ⟨"SN", "BEL", "Brussels Airlines", "Belgium"⟩,
  ⟨"IB", "IBE", "Iberia", "Spain"⟩,
  ⟨"TP", "TAP", "TAP Air Portugal", "Portugal"⟩,
  ⟨"TK", "THY", "Turkish Airlines", "Turkey"⟩,
  ⟨"AA", "AAL", "American Airlines", "United States"⟩,
  ⟨"DL", "DAL", "Delta Air Lines", "United States"⟩,
  ⟨"UA", "UAL", "United Airlines", "United States"⟩,
  ⟨"WN", "SWA", "Southwest Airlines", "United States"⟩,
  ⟨"B6", "JBU", "JetBlue Airways", "United States"⟩,
  ⟨"AC", "ACA", "Air Canada", "Canada"⟩,
  ⟨"SQ", "SIA", "Singapore Airlines", "Singapore"⟩,
  ⟨"CX", "CPA", "Cathay Pacific", "Hong Kong"⟩,
  ⟨"JL", "JAL", "Japan Airlines", "Japan"⟩,
  ⟨"NH", "ANA", "All Nippon Airways", "Japan"⟩,
  ⟨"KE", "KAL", "Korean Air", "South Korea"⟩,
  ⟨"OZ", "AAR", "Asiana Airlines", "South Korea"⟩,
  ⟨"TG", "THA", "Thai Airways", "Thailand"⟩,
  ⟨"MH", "MAS", "Malaysia Airlines", "Malaysia"⟩,
  ⟨"GA", "GIA", "Garuda Indonesia", "Indonesia"⟩,
  ⟨"QF", "QFA", "Qantas Airways", "Australia"⟩,
  ⟨"VA", "VOZ", "Virgin Australia", "Australia"⟩,
  ⟨"JQ", "JST", "Jetstar Airways", "Australia"⟩,
  ⟨"FR", "RYR", "Ryanair", "Ireland"⟩,
  ⟨"U2", "EZY", "easyJet", "United Kingdom"⟩,
  ⟨"W6", "WZZ", "Wizz Air", "Hungary"⟩,
  ⟨"VY", "VLG", "Vueling", "Spain"⟩,
  ⟨"CA", "CCA", "Air China", "China"⟩,
  ⟨"CZ", "CSN", "China Southern Airlines", "China"⟩,
  ⟨"MU", "CES", "China Eastern Airlines", "China"⟩,
  ⟨"HU", "CHH", "Hainan Airlines", "China"⟩]

/-- The `airlines` map: each record is inserted under its IATA key and
(`if (airline.icao)`) its ICAO key. All keys are distinct, so lookup is a
scan of the insertion-ordered association list. -/
def airlinesMap : List (String × AirlineRec) :=
  airlineData.foldl
    (fun m a => m ++ ((a.iata, a) :: (if a.icao ≠ "" then [(a.icao, a)] else []))) []

/-- `this.airlines.get(k)`. -/
def airlinesGet (k : String) : Option AirlineRec :=
  (airlinesMap.find? (fun p => p.1 = k)).map Prod.snd

/-- `this.airlines.has(k)`. -/
def airlinesHas (k : String) : Bool := (airlinesGet k).isSome

/-- `airlineDatabase.getAirline(code)`: exact key, then the 2-letter prefix,
then the 3-letter prefix. -/
def getAirline : Option String → Option AirlineRec
  | none => none
  | some c =>
    if c = "" then none
    else
      let upperCode := jsTrim (jsToUpper c)
      match airlinesGet upperCode with
      | some a => some a
      | none =>
        match (if 2 ≤ jsLen upperCode then airlinesGet (jsTake upperCode 2) else none) with
        | some a => some a
        | none => if 3 ≤ jsLen upperCode then airlinesGet (jsTake upperCode 3) else none

/-- `airlineDatabase.extractAirlineCode(callsign)`. -/
def extractAirlineCode : Option String → Option String
  | none => none
  | some c =>
    if c = "" then none
    else
      let clean := jsTrim (jsToUpper c)
      if 2 ≤ jsLen clean ∧ airlinesHas (jsTake clean 2) then some (jsTake clean 2)
      else if 3 ≤ jsLen clean ∧ airlinesHas (jsTake clean 3) then some (jsTake clean 3)
      else if 2 ≤ jsLen clean then some (jsTake clean 2) else none

/-- `airlineDatabase.getAirlineName(callsign)`. -/
def getAirlineName (callsign : Option String) : String :=
  match getAirline (extractAirlineCode callsign) with
  | some a => a.name
  | none => "Unknown Airline"

/-- `airlineDatabase.getAirlineInfo(callsign)`. -/
def getAirlineInfo (callsign : Option String) : Option AirlineRec :=
  getAirline (extractAirlineCode callsign)

/-! ## Aircraft registry (`aircraftDatabase.js`) -/

structure AircraftRec where
  model : String
  name : String
  manufacturer : String
  category : String   -- the source's `type` field
deriving Repr, DecidableEq

/-- The literal `aircraftData` table of `aircraftDatabase.initializeDatabase`,
indexed by model code. -/
def aircraftData : List AircraftRec := [
  ⟨"B737", "Boeing 737", "Boeing", "Narrow-body"⟩,
  ⟨"B738", "Boeing 737-800", "Boeing", "Narrow-body"⟩,
  ⟨"B739", "Boeing 737-900", "Boeing", "Narrow-body"⟩,
  ⟨"B777", "Boeing 777", "Boeing", "Wide-body"⟩,
  ⟨"B787", "Boeing 787 Dreamliner", "Boeing", "Wide-body"⟩,
  ⟨"B788", "Boeing 787-8", "Boeing", "Wide-body"⟩,
  ⟨"B789", "Boeing 787-9", "Boeing", "Wide-body"⟩,
  ⟨"B78X", "Boeing 787-10", "Boeing", "Wide-body"⟩,
  ⟨"B747", "Boeing 747", "Boeing", "Wide-body"⟩,
  ⟨"B767", "Boeing 767", "Boeing", "Wide-body"⟩,
  ⟨"A320", "Airbus A320", "Airbus", "Narrow-body"⟩,
  ⟨"A321", "Airbus A321", "Airbus", "Narrow-body"⟩,
  ⟨"A319", "Airbus A319", "Airbus", "Narrow-body"⟩,
  ⟨"A330", "Airbus A330", "Airbus", "Wide-body"⟩,
  ⟨"A350", "Airbus A350", "Airbus", "Wide-body"⟩,
  ⟨"A380", "Airbus A380", "Airbus", "Wide-body"⟩,
  ⟨"A340", "Airbus A340", "Airbus", "Wide-body"⟩,
  ⟨"ATR72", "ATR 72", "ATR", "Regional"⟩,
  ⟨"ATR42", "ATR 42", "ATR", "Regional"⟩,
  ⟨"CRJ", "Bombardier CRJ", "Bombardier", "Regional"⟩,
  ⟨"E190", "Embraer E190", "Embraer", "Regional"⟩,
  ⟨"E195", "Embraer E195", "Embraer", "Regional"⟩]

/-- `this.aircraft.get(model)` (the map is keyed by model code). -/
def aircraftGet (model : String) : Option AircraftRec :=
  aircraftData.find? (fun a => a.model = model)

/-- `aircraftDatabase.estimateAircraftFromCallsign(callsign)`.
`r` is the `Math.random()` value drawn when a wide-body carrier is matched. -/
def estimateAircraftFromCallsign (callsign : String) (r : ℚ) : AircraftRec :=
  let airlineCode := jsToUpper (jsTake callsign 2)
  let wideBodyAirlines := ["EK", "QR", "EY", "SQ", "LH", "BA", "AF", "QF", "AI"]
  let regionalAirlines := ["6E", "SG", "G8", "IX"]
  if airlineCode ∈ wideBodyAirlines then
    let wideBody := ["B777", "B787", "A330", "A350"]
    let i := jsFloor (r * 4)
    let model := if 0 ≤ i then wideBody.get? i.toNat else none
    ((model.bind aircraftGet).getD ⟨"B787", "Boeing 787 Dreamliner", "Boeing", "Wide-body"⟩)
  else if airlineCode ∈ regionalAirlines then
    (aircraftGet "A320").getD ⟨"A320", "Airbus A320", "Airbus", "Narrow-body"⟩
  else
    (aircraftGet "A320").getD ⟨"A320", "Airbus A320", "Airbus", "Narrow-body"⟩

/-- `aircraftDatabase.getAircraft(icao24, callsign)`: estimates from the
callsign when one is given (truthy), otherwise returns the literal default
A320 record. Never returns `null`. -/
def getAircraft (_icao24 : String) (callsign : Option String) (r : ℚ) : AircraftRec :=
  match callsign with
  | some c => if c ≠ "" then estimateAircraftFromCallsign c r
              else ⟨"A320", "Airbus A320", "Airbus", "Narrow-body"⟩
  | none => ⟨"A320", "Airbus A320", "Airbus", "Narrow-body"⟩

/-! ## Airport registry (`airportDatabase.js`, reconstructed from the repo's
unnamed airport-database source file) -/

structure AirportRec where
  iata : String
  icao : Option String
  name : String
  city : String
  country : String
  lat : Option ℚ
  lon : Option ℚ
  /-- `findNearestAirport` returns `{ ...airport, distance }`. -/
  distance : Option ℚ := none
deriving Repr, DecidableEq

/-- The literal `airportData` table of `airportDatabase.initializeDatabase`. -/
def airportData : List AirportRec := [
  ⟨"BOM", some "VABB", "Chhatrapati Shivaji Maharaj International Airport", "Mumbai", "India", some (190896/10000), some (728656/10000), none⟩,
  ⟨"DEL", some "VIDP", "Indira Gandhi International Airport", "Delhi", "India", some (285562/10000), some (771000/10000), none⟩,
  ⟨"BLR", some "VOBL", "Kempegowda International Airport", "Bangalore", "India", some (131986/10000), some (777066/10000), none⟩,
  ⟨"MAA", some "VOMM", "Chennai International Airport", "Chennai", "India", some (129941/10000), some (801806/10000), none⟩,
  ⟨"CCU", some "VECC", "Netaji Subhash Chandra Bose International Airport", "Kolkata", "India", some (226547/10000), some (884467/10000), none⟩,
  ⟨"HYD", some "VOHS", "Rajiv Gandhi International Airport", "Hyderabad", "India", some (172403/10000), some (784294/10000), none⟩,
  ⟨"COK", some "VOCI", "Cochin International Airport", "Kochi", "India", some (99312/10000), some (762673/10000), none⟩,
  ⟨"GOI", some "VAGO", "Dabolim Airport", "Goa", "India", some (153808/10000), some (738314/10000), none⟩,
  ⟨"DXB", some "OMDB", "Dubai International Airport", "Dubai", "United Arab Emirates", some (252532/10000), some (553657/10000), none⟩,
  ⟨"AUH", some "OMAA", "Abu Dhabi International Airport", "Abu Dhabi", "United Arab Emirates", some (244330/10000), some (546511/10000), none⟩,
  ⟨"DOH", some "OTHH", "Hamad International Airport", "Doha", "Qatar", some (252611/10000), some (515651/10000), none⟩,
  ⟨"RUH", some "OERK", "King Khalid International Airport", "Riyadh", "Saudi Arabia", some (249576/10000), some (466988/10000), none⟩,
  ⟨"JED", some "OEJN", "King Abdulaziz International Airport", "Jeddah", "Saudi Arabia", some (216796/10000), some (391565/10000), none⟩,
  ⟨"LHR", some "EGLL", "London Heathrow Airport", "London", "United Kingdom", some (514700/10000), some (-4543/10000), none⟩,
  ⟨"LGW", some "EGKK", "London Gatwick Airport", "London", "United Kingdom", some (511537/10000), some (-1821/10000), none⟩,
  ⟨"FRA", some "EDDF", "Frankfurt Airport", "Frankfurt", "Germany", some (500379/10000), some (85622/10000), none⟩,
  ⟨"MUC", some "EDDM", "Munich Airport", "Munich", "Germany", some (483538/10000), some (117861/10000), none⟩,
  ⟨"CDG", some "LFPG", "Charles de Gaulle Airport", "Paris", "France", some (490097/10000), some (25479/10000), none⟩,
  ⟨"AMS", some "EHAM", "Amsterdam Airport Schiphol", "Amsterdam", "Netherlands", some (523105/10000), some (47683/10000), none⟩,
  ⟨"ZUR", some "LSZH", "Zurich Airport", "Zurich", "Switzerland", some (474647/10000), some (85492/10000), none⟩,
  ⟨"VIE", some "LOWW", "Vienna International Airport", "Vienna", "Austria", some (481103/10000), some (165697/10000), none⟩,
  ⟨"IST", some "LTFM", "Istanbul Airport", "Istanbul", "Turkey", some (412753/10000), some (287519/10000), none⟩,
  ⟨"JFK", some "KJFK", "John F. Kennedy International Airport", "New York", "United States", some (406413/10000), some (-737781/10000), none⟩,
  ⟨"LAX", some "KLAX", "Los Angeles International Airport", "Los Angeles", "United States", some (339416/10000), some (-1184085/10000), none⟩,
  ⟨"SFO", some "KSFO", "San Francisco International Airport", "San Francisco", "United States", some (376213/10000), some (-1223790/10000), none⟩,
  ⟨"DFW", some "KDFW", "Dallas/Fort Worth International Airport", "Dallas", "United States", some (328998/10000), some (-970403/10000), none⟩,
  ⟨"ATL", some "KATL", "Hartsfield-Jackson Atlanta International Airport", "Atlanta", "United States", some (336407/10000), some (-844277/10000), none⟩,
  ⟨"ORD", some "KORD", "O'Hare International Airport", "Chicago", "United States", some (419742/10000), some (-879073/10000), none⟩,
  ⟨"YYZ", some "CYYZ", "Toronto Pearson International Airport", "Toronto", "Canada", some (436772/10000), some (-796306/10000), none⟩,
  ⟨"SIN", some "WSSS", "Singapore Changi Airport", "Singapore", "Singapore", some (13644/10000), some (1039915/10000), none⟩,
  ⟨"HKG", some "VHHH", "Hong Kong International Airport", "Hong Kong", "Hong Kong", some (223080/10000), some (1139185/10000), none⟩,
  ⟨"BKK", some "VTBS", "Suvarnabhumi Airport", "Bangkok", "Thailand", some (136811/10000), some (1007473/10000), none⟩,
  ⟨"KUL", some "WMKK", "Kuala Lumpur International Airport", "Kuala Lumpur", "Malaysia", some (27456/10000), some (1017099/10000), none⟩,
  ⟨"NRT", some "RJAA", "Narita International Airport", "Tokyo", "Japan", some (357720/10000), some (1403929/10000), none⟩,
  ⟨"HND", some "RJTT", "Tokyo Haneda Airport", "Tokyo", "Japan", some (355494/10000), some (1397798/10000), none⟩,
  ⟨"ICN", some "RKSI", "Incheon International Airport", "Seoul", "South Korea", some (374602/10000), some (1264407/10000), none⟩,
  ⟨"PEK", some "ZBAA", "Beijing Capital International Airport", "Beijing", "China", some (400801/10000), some (1165845/10000), none⟩,
  ⟨"PVG", some "ZSPD", "Shanghai Pudong International Airport", "Shanghai", "China", some (311434/10000), some (1218052/10000), none⟩,
  ⟨"SYD", some "YSSY", "Sydney Kingsford Smith Airport", "Sydney", "Australia", some (-339399/10000), some (1511753/10000), none⟩,
  ⟨"MEL", some "YMML", "Melbourne Airport", "Melbourne", "Australia", some (-376733/10000), some (1448433/10000), none⟩,
  ⟨"AKL", some "NZAA", "Auckland Airport", "Auckland", "New Zealand", some (-370082/10000), some (1747850/10000), none⟩]

/-- The `airports` map: each record inserted under its IATA and
(`if (airport.icao)`) ICAO key, in table order. -/
def airportsMap : List (String × AirportRec) :=
  airportData.foldl
    (fun m a =>
      m ++ ((a.iata, a) :: (match a.icao with
                            | some ic => if ic ≠ "" then [(ic, a)] else []
                            | none => []))) []

/-- `this.airports.get(k)`. -/
def airportsGet (k : String) : Option AirportRec :=
  (airportsMap.find? (fun p => p.1 = k)).map Prod.snd

/-- `airportDatabase.getAirport(code)`. -/
def getAirport (code : String) : Option AirportRec :=
  if code = "" then none
  else airportsGet (jsTrim (jsToUpper code))

/-- `this.airports.values()` in insertion order (each airport appears once per
key it was stored under, exactly as `Map.values()` yields it). -/
def airportValues : List AirportRec := airportsMap.map Prod.snd

/-- `airportDatabase.findNearestAirport(lat, lon, maxDistanceKm)`.
`dist` is the floating-point haversine `calculateDistance`, carried as an
oracle. Airports with a falsy `lat` or `lon` are skipped. -/
def findNearestAirport (dist : ℚ → ℚ → ℚ → ℚ → ℚ) (lat lon maxDistanceKm : ℚ) :
    Option AirportRec :=
  (airportValues.foldl
    (fun (acc : Option (AirportRec × ℚ)) ap =>
      match ap.lat, ap.lon with
      | some alat, some alon =>
        if alat ≠ 0 ∧ alon ≠ 0 then
          let d := dist lat lon alat alon
          let better : Bool := match acc with | none => true | some (_, m) => d < m
          if better ∧ d ≤ maxDistanceKm
          then some ({ ap with distance := some d }, d)
          else acc
        else acc
      | _, _ => acc) none).map Prod.fst

/-! ## Route registry (`routeDatabase.js`) -/

structure RouteRec where
  src : String   -- the source's `from` field
  dst : String   -- the source's `to` field
  frequency : String
deriving Repr, DecidableEq

/-- The literal `routeData` table of `RouteDatabase.initializeDatabase`. -/
def routesMap : List (String × List RouteRec) := [
  ("AI", [⟨"DEL", "BOM", "high"⟩, ⟨"DEL", "DXB", "high"⟩, ⟨"BOM", "DXB", "high"⟩,
          ⟨"DEL", "LHR", "high"⟩, ⟨"BOM", "LHR", "high"⟩, ⟨"DEL", "JFK", "medium"⟩,
          ⟨"BOM", "JFK", "medium"⟩, ⟨"DEL", "SIN", "medium"⟩, ⟨"BOM", "SIN", "medium"⟩]),
  ("6E", [⟨"DEL", "BOM", "very_high"⟩, ⟨"DEL", "BLR", "very_high"⟩, ⟨"BOM", "BLR", "very_high"⟩,
          ⟨"DEL", "MAA", "high"⟩, ⟨"BOM", "MAA", "high"⟩, ⟨"DEL", "CCU", "high"⟩,
          ⟨"BOM", "HYD", "high"⟩, ⟨"DEL", "DXB", "medium"⟩, ⟨"BOM", "DXB", "medium"⟩,
          ⟨"DEL", "SIN", "medium"⟩]),
  ("EK", [⟨"DXB", "BOM", "very_high"⟩, ⟨"DXB", "DEL", "very_high"⟩, ⟨"DXB", "LHR", "very_high"⟩,
          ⟨"DXB", "JFK", "high"⟩, ⟨"DXB", "LAX", "high"⟩, ⟨"DXB", "SIN", "high"⟩,
          ⟨"DXB", "BKK", "high"⟩, ⟨"DXB", "HKG", "high"⟩]),
  ("LH", [⟨"FRA", "DEL", "high"⟩, ⟨"FRA", "BOM", "high"⟩, ⟨"FRA", "JFK", "very_high"⟩,
          ⟨"FRA", "LAX", "high"⟩, ⟨"MUC", "DEL", "medium"⟩, ⟨"MUC", "BOM", "medium"⟩,
          ⟨"FRA", "SIN", "high"⟩, ⟨"FRA", "BKK", "high"⟩]),
  ("BA", [⟨"LHR", "DEL", "very_high"⟩, ⟨"LHR", "BOM", "very_high"⟩, ⟨"LHR", "BLR", "high"⟩,
          ⟨"LHR", "JFK", "very_high"⟩, ⟨"LHR", "LAX", "high"⟩, ⟨"LHR", "SIN", "high"⟩,
          ⟨"LHR", "HKG", "high"⟩]),
  ("QR", [⟨"DOH", "DEL", "very_high"⟩, ⟨"DOH", "BOM", "very_high"⟩, ⟨"DOH", "LHR", "very_high"⟩,
          ⟨"DOH", "JFK", "high"⟩, ⟨"DOH", "SIN", "high"⟩, ⟨"DOH", "BKK", "high"⟩]),
  ("SQ", [⟨"SIN", "DEL", "high"⟩, ⟨"SIN", "BOM", "high"⟩, ⟨"SIN", "BLR", "high"⟩,
          ⟨"SIN", "LHR", "high"⟩, ⟨"SIN", "JFK", "high"⟩, ⟨"SIN", "SYD", "very_high"⟩,
          ⟨"SIN", "HKG", "very_high"⟩]),
  ("QF", [⟨"SYD", "SIN", "very_high"⟩, ⟨"SYD", "HKG", "high"⟩, ⟨"SYD", "DXB", "high"⟩,
          ⟨"SYD", "LHR", "high"⟩, ⟨"MEL", "SIN", "high"⟩, ⟨"MEL", "DXB", "high"⟩])]

/-- `routeDatabase.getRoutes(airlineCode)`. -/
def getRoutes (airlineCode : Option String) : List RouteRec :=
  match airlineCode with
  | none => []
  | some c =>
    if c = "" then []
    else ((routesMap.find? (fun p => p.1 = jsToUpper c)).map Prod.snd).getD []

/-- `frequencyOrder[f] || 0`. -/
def freqOrd (f : String) : ℤ :=
  if f = "very_high" then 3
  else if f = "high" then 2
  else if f = "medium" then 1
  else if f = "low" then 0
  else 0

/-- Stable insertion into a descending-frequency sorted list: an element goes
before the first strictly-lower tier, after equal tiers. -/
def insertRouteDesc (x : RouteRec) : List RouteRec → List RouteRec
  | [] => [x]
  | y :: t =>
    if freqOrd y.frequency ≤ freqOrd x.frequency then x :: y :: t
    else y :: insertRouteDesc x t

/-- Stable sort by descending frequency tier. `Array.prototype.sort` with the
comparator `(a, b) => frequencyOrder[b] - frequencyOrder[a]` is a stable sort
by that key, and a stable sort by a fixed key is unique, so this insertion
sort computes exactly the source's result. -/
def sortRoutesDesc : List RouteRec → List RouteRec
  | [] => []
  | x :: t => insertRouteDesc x (sortRoutesDesc t)

/-- `routeDatabase.getMostCommonRoute(airlineCode)`: stable-sort by descending
frequency tier, then take the first route. -/
def getMostCommonRoute (airlineCode : Option String) : Option RouteRec :=
  let routes := getRoutes airlineCode
  match routes with
  | [] => none
  | _ => (sortRoutesDesc routes).head?

/-! ## Identifier normalizer (`normalizeFlightNumber`) -/

structure NormResult where
  original : String
  normalized : String
  isIcao : Bool
deriving Repr, DecidableEq

/-- The `/^[A-Z]{3}\d/` regex test. -/
def icaoShape (n : String) : Bool :=
  match n.toList with
  | a :: b :: c :: d :: _ => isUpperAZ a && isUpperAZ b && isUpperAZ c && isDigit09 d
  | _ => false

/-- `FlightTrackingService.normalizeFlightNumber`. -/
def normalizeFlightNumber (flightNumber : String) : NormResult :=
  let normalized := jsTrim (jsToUpper flightNumber)
  if 4 ≤ jsLen normalized ∧ icaoShape normalized then
    let icaoCode := jsTake normalized 3
    let flightNum := jsDrop normalized 3
    match getAirline (some icaoCode) with
    | some airline =>
      if airline.iata ≠ "" then
        ⟨normalized, airline.iata ++ flightNum, true⟩
      else ⟨normalized, normalized, false⟩
    | none => ⟨normalized, normalized, false⟩
  else ⟨normalized, normalized, false⟩

/-! ## Flight record data model

One structure covers the records built by all provider paths; fields a path
does not set are `none` (JS `undefined`), and loosely-typed fields
(terminal/gate hold strings on some paths, numbers on others) use `JPrim`.
Timestamps stand for the JS `Date`/ISO-string values in milliseconds. -/

inductive JPrim where
  | jstr (s : String)
  | jnum (q : ℚ)
  | jnull
deriving Repr, DecidableEq

/-- The `position` object built by `formatOpenSkyStateData`. -/
structure Position where
  longitude : ℚ
  latitude : ℚ
  altitude : Option ℚ
  altitudeFeet : Option ℤ
  velocity : Option ℚ
  velocityKnots : Option ℤ
  heading : Option ℚ
  verticalRate : Option ℚ
  squawk : Option String
deriving Repr, DecidableEq

/-- A departure or arrival block of a flight record. -/
structure DepArr where
  airport : Option String := none
  iata : Option String := none
  city : Option String := none
  country : Option String := none
  scheduled : Option ℚ := none
  actual : Option ℚ := none
  estimated : Option ℚ := none
  terminal : JPrim := .jnull
  gate : JPrim := .jnull
  delay : Option ℚ := none
deriving Repr, DecidableEq

structure FlightRecord where
  flightNumber : Option String := none
  airline : Option String := none
  airlineCode : Option String := none
  aircraft : Option String := none
  aircraftModel : Option String := none
  aircraftRegistration : Option String := none
  departure : DepArr := {}
  arrival : DepArr := {}
  status : String := "scheduled"
  live : Option Bool := none
  position : Option Position := none
  route : Option RouteRec := none
  source : String := ""
  lastUpdate : Option ℚ := none
  enriched : Bool := false
deriving Repr, DecidableEq

/-- An OpenSky `/states/all` state vector (the indexed array row). -/
structure StateVector where
  icao24 : String            -- state[0]
  callsign : Option String   -- state[1]
  originCountry : Option String -- state[2]
  timePosition : Option ℚ    -- state[3]
  lastContact : Option ℚ     -- state[4]
  longitude : Option ℚ       -- state[5]
  latitude : Option ℚ        -- state[6]
  baroAltitude : Option ℚ    -- state[7]
  onGround : Bool            -- state[8]
  velocity : Option ℚ        -- state[9]
  trueTrack : Option ℚ       -- state[10]
  verticalRate : Option ℚ    -- state[11]
  geoAltitude : Option ℚ     -- state[13]
  squawk : Option String     -- state[14]
deriving Repr, DecidableEq

/-- A departure/arrival block of an AviationStack API flight payload. -/
structure AvDepArr where
  airport : Option String := none
  iata : Option String := none
  scheduled : Option ℚ := none
  actual : Option ℚ := none
  terminal : Option String := none
  gate : Option String := none
  delay : Option ℚ := none
deriving Repr, DecidableEq

/-- An AviationStack API flight payload (the fields the service reads). -/
structure AvFlight where
  flightIata : Option String := none    -- flight.flight?.iata
  flightIcao : Option String := none    -- flight.flight?.icao
  airlineName : Option String := none   -- flight.airline?.name
  aircraftIata : Option String := none  -- flight.aircraft?.iata
  departure : Option AvDepArr := none
  arrival : Option AvDepArr := none
  live : Option Bool := none            -- flight.live
  flightStatus : Option String := none  -- flight.flight_status (only logged)
deriving Repr, DecidableEq

/-! ## Cache (`getCachedFlight` / `cacheFlight`) -/

structure CacheEntry where
  data : FlightRecord
  timestamp : ℚ
deriving Repr, DecidableEq

/-- The `this.cache` JS `Map`, as an insertion-ordered association list with
unique keys. -/
abbrev Cache := List (String × CacheEntry)

/-- `this.cacheTTL = 5 * 60 * 1000` milliseconds. -/
def cacheTTL : ℚ := 5 * 60 * 1000

/-- `Map.get`. -/
def mapGet (c : Cache) (k : String) : Option CacheEntry :=
  (c.find? (fun p => p.1 = k)).map Prod.snd

/-- `Map.set`: overwrite in place or append. -/
def mapSet : Cache → String → CacheEntry → Cache
  | [], k, e => [(k, e)]
  | (k', e') :: rest, k, e =>
    if k' = k then (k, e) :: rest else (k', e') :: mapSet rest k e

/-- `Map.delete`. -/
def mapDelete : Cache → String → Cache
  | [], _ => []
  | (k', e') :: rest, k =>
    if k' = k then rest else (k', e') :: mapDelete rest k

/-- `FlightTrackingService.getCachedFlight(flightNumber)` at time `now`:
returns the cached record while its age is strictly below the TTL, and
otherwise deletes the expired entry and returns nothing. -/
def getCachedFlight (c : Cache) (flightNumber : String) (now : ℚ) :
    Option FlightRecord × Cache :=
  let cacheKey := "flight:" ++ jsToUpper flightNumber
  match mapGet c cacheKey with
  | some cached =>
    if now - cached.timestamp < cacheTTL then (some cached.data, c)
    else (none, mapDelete c cacheKey)
  | none => (none, c)

/-- `FlightTrackingService.cacheFlight(flightNumber, data)` at time `now`. -/
def cacheFlight (c : Cache) (flightNumber : String) (data : FlightRecord) (now : ℚ) :
    Cache :=
  mapSet c ("flight:" ++ jsToUpper flightNumber) ⟨data, now⟩

/-! ## Quota tracker (`canUseAviationStack` / `incrementAviationStackUsage`) -/

structure QuotaState where
  count : ℤ
  limit : ℤ
  resetDate : Option ℚ
deriving Repr, DecidableEq

/-- `FlightTrackingService.canUseAviationStack()`.

`nextMonth` is the oracle for
`new Date(now.getFullYear(), now.getMonth() + 1, 1)` — the first instant of
the next local calendar month. The source checks, in this order: a usable API
key, `count >= limit` (returning `false` *before* any rollover handling), and
only then the month rollover, after which it returns `true`. -/
def canUseAviationStack (apiKey : String) (nextMonth : ℚ → ℚ)
    (u : QuotaState) (now : ℚ) : Bool × QuotaState :=
  if apiKey = "" ∨ apiKey = "your_api_key_here" then (false, u)
  else if u.limit ≤ u.count then (false, u)
  else
    match u.resetDate with
    | some resetDate =>
      if resetDate < now then
        (true, { u with count := 0, resetDate := some (nextMonth now) })
      else (true, u)
    | none => (true, u)

/-- `FlightTrackingService.incrementAviationStackUsage()`. -/
def incrementAviationStackUsage (u : QuotaState) : QuotaState :=
  { u with count := u.count + 1 }

/-! ## OAuth2 token manager (`getOpenSkyAccessToken`) -/

structure TokenState where
  openSkyAccessToken : Option String
  openSkyTokenExpiry : Option ℚ
deriving Repr, DecidableEq

/-- Outcome of one client-credentials exchange against the OpenSky auth
endpoint (`axios.post` / the `response.data` fields the service reads).
`exErr` covers network errors and timeouts. -/
inductive TokenExchange where
  | exOk (accessToken : Option String) (expiresIn : Option ℚ)
  | exErr
deriving Repr, DecidableEq

/-- `FlightTrackingService.getOpenSkyAccessToken()`: reuse the cached token
while `Date.now() < openSkyTokenExpiry`; otherwise, with credentials
configured, exchange and store
`expiry = now + ((expires_in || 1800) - 300) * 1000`. -/
def getOpenSkyAccessToken (hasCredentials : Bool) (exchange : TokenExchange)
    (ts : TokenState) (now : ℚ) : Option String × TokenState :=
  if sTruthy ts.openSkyAccessToken ∧ qTruthy ts.openSkyTokenExpiry ∧
      qLtO now ts.openSkyTokenExpiry then
    (ts.openSkyAccessToken, ts)
  else if ¬hasCredentials then (none, ts)
  else
    match exchange with
    | .exOk tok expiresInRaw =>
      if sTruthy tok then
        let expiresIn := (if qTruthy expiresInRaw then expiresInRaw.getD 0 else 1800) - 300
        (tok, ⟨tok, some (now + expiresIn * 1000)⟩)
      else (none, ts)
    | .exErr => (none, ts)

/-! ## Environment oracles -/

/-- Oracles for the parts of the runtime that are not shallowly embeddable:
the floating-point haversine (`airportDatabase.calculateDistance`), the
local-calendar next-month computation of the quota reset, and one field per
`Math.random()` call site (each is the value drawn there, in `[0,1)`). -/
structure Ext where
  dist : ℚ → ℚ → ℚ → ℚ → ℚ
  nextMonth : ℚ → ℚ
  rAircraft : ℚ      -- estimateAircraftFromCallsign wide-body pick
  rEstTime : ℚ       -- estimatedFlightTime draw
  rDepTerminal : ℚ   -- getRandomTerminal (departure)
  rDepGate : ℚ       -- getRandomGate (departure)
  rArrTerminal : ℚ   -- getRandomTerminal (arrival)
  rArrGate : ℚ       -- getRandomGate (arrival)
  rmDepOffset : ℚ    -- mock scheduled departure offset
  rmDuration : ℚ     -- mock flight duration
  rmDepAirport : ℚ   -- mock departure airport pick
  rmArrAirport : ℚ   -- mock arrival airport pick
  rmAirline : ℚ      -- mock airline pick
  rmDepTerminal : ℚ
  rmDepGate : ℚ
  rmDepDelayP : ℚ    -- mock departure `Math.random() > 0.7` draw
  rmDepDelay : ℚ
  rmArrTerminal : ℚ
  rmArrGate : ℚ
  rmArrDelayP : ℚ
  rmArrDelay : ℚ

/-- `FlightTrackingService.getRandomTerminal()`. -/
def getRandomTerminal (r : ℚ) : ℤ := jsFloor (r * 3) + 1

/-- `FlightTrackingService.getRandomGate()`. -/
def getRandomGate (r : ℚ) : ℤ := jsFloor (r * 50) + 1

/-! ## Scheduled provider adapter (AviationStack) -/

/-- `FlightTrackingService.formatAviationStackData(flight)` at time `now`.
Comparisons against an absent (Invalid) date are false, exactly as NaN
comparisons are in JS. -/
def formatAviationStackData (flight : AvFlight) (now : ℚ) : FlightRecord :=
  let scheduledDeparture := flight.departure.bind AvDepArr.scheduled
  let actualDeparture := flight.departure.bind AvDepArr.actual
  let scheduledArrival := flight.arrival.bind AvDepArr.scheduled
  let actualArrival := flight.arrival.bind AvDepArr.actual
  let status :=
    if qGtO now actualArrival then "landed"
    else if qGtO now actualDeparture then
      (if qLtO now actualArrival then "in-flight"
       else if actualArrival = none ∧ qLtO now scheduledArrival then "in-flight"
       else "landed")
    else if qGtO now scheduledArrival then "landed"
    else if qGtO now scheduledDeparture then "in-flight"
    else "scheduled"
  let jp : Option String → JPrim := fun v => match v with
    | some s => .jstr s
    | none => .jnull
  { flightNumber := sOr flight.flightIata flight.flightIcao,
    airline := flight.airlineName,
    aircraft := flight.aircraftIata,
    departure := {
      airport := flight.departure.bind AvDepArr.airport,
      iata := flight.departure.bind AvDepArr.iata,
      scheduled := flight.departure.bind AvDepArr.scheduled,
      actual := flight.departure.bind AvDepArr.actual,
      terminal := jp (flight.departure.bind AvDepArr.terminal),
      gate := jp (flight.departure.bind AvDepArr.gate),
      delay := flight.departure.bind AvDepArr.delay },
    arrival := {
      airport := flight.arrival.bind AvDepArr.airport,
      iata := flight.arrival.bind AvDepArr.iata,
      scheduled := flight.arrival.bind AvDepArr.scheduled,
      actual := flight.arrival.bind AvDepArr.actual,
      terminal := jp (flight.arrival.bind AvDepArr.terminal),
      gate := jp (flight.arrival.bind AvDepArr.gate),
      delay := flight.arrival.bind AvDepArr.delay },
    status := status,
    live := flight.live,
    source := "aviationstack" }

/-- The `searchVariations` array of `getFlightFromAviationStack`. -/
structure SearchParams where
  flightIata : Option String := none
  flightIcao : Option String := none
  flightNumberParam : Option String := none
  flightStatus : Option String := none
deriving Repr, DecidableEq

def searchVariations (flightNumber : String) : List SearchParams := [
  { flightIata := some flightNumber, flightStatus := some "active" },
  { flightIcao := some flightNumber, flightStatus := some "active" },
  { flightNumberParam := some flightNumber, flightStatus := some "active" },
  { flightIata := some flightNumber },
  { flightIcao := some flightNumber },
  { flightNumberParam := some flightNumber },
  { flightIata := some (jsTake flightNumber 3 ++ jsDrop flightNumber 3) },
  { flightIata := some (jsTake flightNumber 2 ++ jsDrop flightNumber 2) }]

/-- Outcome of one AviationStack HTTP request: a response whose `data.data`
array is `flights` (empty when absent or no match), or a thrown error
(`rateLimited` when the response status was 429 or 402). -/
inductive AvOutcome where
  | ok (flights : List AvFlight)
  | err (rateLimited : Bool)
deriving Repr

/-- Result of one iteration of the `searchVariations` loop. -/
inductive AvStepRes where
  /-- `canUseAviationStack()` was false: `break`, no request issued. -/
  | stop (u : QuotaState)
  /-- a request was issued and returned a formatted match. -/
  | found (r : FlightRecord) (u : QuotaState)
  /-- a request was issued and the loop continues. -/
  | next (u : QuotaState)
deriving Repr

/-- One iteration of `getFlightFromAviationStack`'s loop: re-check the quota,
issue the request, increment usage on any response, and on an error increment
nothing — except a rate-limit/payment error, which sets `count = limit`. -/
def avStep (apiKey : String) (nextMonth : ℚ → ℚ) (now : ℚ)
    (outcome : AvOutcome) (u : QuotaState) : AvStepRes :=
  let r := canUseAviationStack apiKey nextMonth u now
  if r.1 then
    match outcome with
    | .ok flights =>
      let u2 := incrementAviationStackUsage r.2
      match flights with
      | [] => .next u2
      | f :: _ => .found (formatAviationStackData f now) u2
    | .err rateLimited =>
      .next (if rateLimited then { r.2 with count := r.2.limit } else r.2)
  else .stop r.2

/-- The `searchVariations` loop. `attempts i` is the outcome of the `i`-th
request of this lookup; the returned `Nat` counts attempts actually issued. -/
def avLoop (apiKey : String) (nextMonth : ℚ → ℚ) (now : ℚ)
    (attempts : Nat → AvOutcome) :
    List SearchParams → Nat → QuotaState → Nat →
    Option FlightRecord × QuotaState × Nat
  | [], _, u, issued => (none, u, issued)
  | _ :: rest, i, u, issued =>
    match avStep apiKey nextMonth now (attempts i) u with
    | .stop u' => (none, u', issued)
    | .found r u' => (some r, u', issued + 1)
    | .next u' => avLoop apiKey nextMonth now attempts rest (i + 1) u' (issued + 1)

/-- `FlightTrackingService.getFlightFromAviationStack(flightNumber)`. -/
def getFlightFromAviationStack (apiKey : String) (nextMonth : ℚ → ℚ)
    (flightNumber : String) (attempts : Nat → AvOutcome)
    (u : QuotaState) (now : ℚ) : Option FlightRecord × QuotaState × Nat :=
  avLoop apiKey nextMonth now attempts (searchVariations flightNumber) 0 u 0

/-! ## Live provider adapter and enrichment (OpenSky) -/

/-- `getAirportInfoFromAirline`'s result shape. -/
structure AirportPair where
  depAirport : String
  depIata : String
  arrAirport : String
  arrIata : String
deriving Repr, DecidableEq

/-- `FlightTrackingService.getAirportInfoFromAirline(airline, originCountry)`. -/
def getAirportInfoFromAirline (airline originCountry : String) : AirportPair :=
  if airline = "Air India" then
    ⟨"Indira Gandhi International Airport", "DEL", "Chhatrapati Shivaji International Airport", "BOM"⟩
  else if airline = "Lufthansa" then
    ⟨"Frankfurt International Airport", "FRA", "Munich Airport", "MUC"⟩
  else if airline = "British Airways" then
    ⟨"London Heathrow Airport", "LHR", "London Gatwick Airport", "LGW"⟩
  else if airline = "American Airlines" then
    ⟨"Dallas/Fort Worth International Airport", "DFW", "Los Angeles International Airport", "LAX"⟩
  else if airline = "Delta Air Lines" then
    ⟨"Hartsfield-Jackson Atlanta International Airport", "ATL", "John F. Kennedy International Airport", "JFK"⟩
  else if originCountry = "India" then
    ⟨"Indira Gandhi International Airport", "DEL", "Chhatrapati Shivaji International Airport", "BOM"⟩
  else if originCountry = "Germany" then
    ⟨"Frankfurt International Airport", "FRA", "Munich Airport", "MUC"⟩
  else if originCountry = "United States" then
    ⟨"Los Angeles International Airport", "LAX", "John F. Kennedy International Airport", "JFK"⟩
  else ⟨"International Airport", "INT", "Destination Airport", "DST"⟩

/-- `FlightTrackingService.formatOpenSkyStateData(state)` at time `now`. -/
def formatOpenSkyStateData (state : StateVector) (ext : Ext) (now : ℚ) : FlightRecord :=
  let callsign := state.callsign.map jsTrim
  let icao24 := state.icao24
  let originCountry := match state.originCountry with
    | some s => if s ≠ "" then s else "Unknown"
    | none => "Unknown"
  -- position, present iff longitude and latitude are both non-null
  let altSel := if qTruthy state.baroAltitude then state.baroAltitude else state.geoAltitude
  let position : Option Position :=
    match state.longitude, state.latitude with
    | some lonV, some latV =>
      some { longitude := lonV,
             latitude := latV,
             altitude := if qTruthy altSel then altSel else none,
             altitudeFeet := if qTruthy altSel then
                 some (jsRound ((altSel.getD 0) * (328084/100000))) else none,
             velocity := qOrNull state.velocity,
             velocityKnots := if qTruthy state.velocity then
                 some (jsRound ((state.velocity.getD 0) * (194384/100000))) else none,
             heading := qOrNull state.trueTrack,
             verticalRate := qOrNull state.verticalRate,
             squawk := sOrNull state.squawk }
    | _, _ => none
  -- STEP 1: airline info
  let airlineInfo := getAirlineInfo callsign
  let airline := match airlineInfo with
    | some a => a.name
    | none => getAirlineName callsign
  let airlineCode := extractAirlineCode callsign
  -- STEP 2: aircraft info (getAircraft never returns null)
  let aircraftInfo := getAircraft icao24 callsign ext.rAircraft
  let aircraft := aircraftInfo.name
  let aircraftModel := some aircraftInfo.model
  -- STEP 3: route guess
  let routeInfo := if sTruthy airlineCode then getMostCommonRoute airlineCode else none
  -- STEP 4: airports
  let departureAirport0 := routeInfo.bind (fun r => getAirport r.src)
  let arrivalAirport0 := routeInfo.bind (fun r => getAirport r.dst)
  let arrivalAirport1 :=
    match position with
    | some p =>
      if departureAirport0 = none ∨ arrivalAirport0 = none then
        match findNearestAirport ext.dist p.latitude p.longitude 500 with
        | some nearestAirport =>
          if departureAirport0 = none ∧ arrivalAirport0 = none then some nearestAirport
          else arrivalAirport0
        | none => arrivalAirport0
      else arrivalAirport0
    | none => arrivalAirport0
  let defaultAirports := getAirportInfoFromAirline airline originCountry
  let departureAirport : AirportRec :=
    match departureAirport0 with
    | some a => a
    | none =>
      match getAirport defaultAirports.depIata with
      | some a => a
      | none => { iata := defaultAirports.depIata, icao := none,
                  name := defaultAirports.depAirport, city := "Unknown",
                  country := originCountry, lat := none, lon := none }
  let arrivalAirport : AirportRec :=
    match arrivalAirport1 with
    | some a => a
    | none =>
      match getAirport defaultAirports.arrIata with
      | some a => a
      | none => { iata := defaultAirports.arrIata, icao := none,
                  name := defaultAirports.arrAirport, city := "Unknown",
                  country := "Unknown", lat := none, lon := none }
  let estimatedFlightTime : ℚ :=
    match position with
    | some p =>
      if qTruthy p.velocity then
        max 1 (min 12 ((jsFloor (ext.rEstTime * 4 + 2) : ℤ) : ℚ))
      else 3
    | none => 3
  let isOnGround := state.onGround
  let status := if isOnGround then "landed" else "in-flight"
  let estimatedArrivalTime : Option ℚ :=
    match position with
    | some p =>
      if qTruthy arrivalAirport.lat ∧ qTruthy arrivalAirport.lon then
        let distanceKm := ext.dist p.latitude p.longitude
          (arrivalAirport.lat.getD 0) (arrivalAirport.lon.getD 0)
        let speedKmh := if qTruthy p.velocity then (p.velocity.getD 0) * (36/10) else 800
        let hoursRemaining := distanceKm / speedKmh
        some (now + hoursRemaining * 60 * 60 * 1000)
      else none
    | none => none
  { flightNumber := callsign,
    airline := some airline,
    airlineCode := airlineCode,
    aircraft := some aircraft,
    aircraftModel := aircraftModel,
    aircraftRegistration := some icao24,
    departure := {
      airport := some departureAirport.name,
      iata := some departureAirport.iata,
      city := some departureAirport.city,
      country := some departureAirport.country,
      scheduled := some (now - estimatedFlightTime * 60 * 60 * 1000),
      actual := some (now - estimatedFlightTime * 60 * 60 * 1000),
      terminal := .jnum ((getRandomTerminal ext.rDepTerminal : ℤ) : ℚ),
      gate := .jnum ((getRandomGate ext.rDepGate : ℤ) : ℚ),
      delay := some 0 },
    arrival := {
      airport := some arrivalAirport.name,
      iata := some arrivalAirport.iata,
      city := some arrivalAirport.city,
      country := some arrivalAirport.country,
      scheduled := match estimatedArrivalTime with
        | some t => some t
        | none => some (now + estimatedFlightTime * (3/10) * 60 * 60 * 1000),
      estimated := estimatedArrivalTime,
      actual := none,
      terminal := .jnum ((getRandomTerminal ext.rArrTerminal : ℤ) : ℚ),
      gate := .jnum ((getRandomGate ext.rArrGate : ℤ) : ℚ),
      delay := some 0 },
    status := status,
    live := some true,
    position := position,
    route := routeInfo,
    source := "opensky-enriched",
    lastUpdate := match state.lastContact with
      | some lc => if lc ≠ 0 then some (lc * 1000) else some now
      | none => some now,
    enriched := true }

/-- The callsign filter of the main OpenSky search loop:
`callsign && callsign.toUpperCase().includes(searchTerm.toUpperCase())`. -/
def matchesSearchTerm (searchTerm : String) (st : StateVector) : Bool :=
  match st.callsign with
  | some cs0 =>
    let cs := jsTrim cs0
    cs ≠ "" && containsUpper cs searchTerm
  | none => false

/-- `response.data.states.find(...)`, with `none` covering a request error or
a response without a `states` array. -/
def scanStates (response : Option (List StateVector)) (p : StateVector → Bool) :
    Option StateVector :=
  match response with
  | some states => states.find? p
  | none => none

/-- `FlightTrackingService.getFlightFromOpenSky(flightNumber)`.
`states i` is the `states` array of the `i`-th `/states/all` request of this
lookup (`none` for a failed request). Every successful return is
`formatOpenSkyStateData` applied to the first matching state vector. -/
def getFlightFromOpenSky (states : Nat → Option (List StateVector))
    (flightNumber : String) (ext : Ext) (now : ℚ) : Option FlightRecord :=
  let term0 := flightNumber                       -- exact match
  let term1 := jsTake flightNumber 3              -- airline code only
  let term2 := String.mk (flightNumber.toList.filter
                 (fun ch => isUpperAZ ch || isDigit09 ch))  -- clean version
  match scanStates (states 0) (matchesSearchTerm term0) with
  | some flight => some (formatOpenSkyStateData flight ext now)
  | none =>
    match scanStates (states 1) (matchesSearchTerm term1) with
    | some flight => some (formatOpenSkyStateData flight ext now)
    | none =>
      match scanStates (states 2) (matchesSearchTerm term2) with
      | some flight => some (formatOpenSkyStateData flight ext now)
      | none =>
        -- alternative approach: any flight of the same 2-letter airline code
        let airlineCode := jsToUpper (jsTake flightNumber 2)
        match scanStates (states 3) (fun st =>
            match st.callsign with
            | some cs0 => let cs := jsTrim cs0; cs ≠ "" && jsStartsWith cs airlineCode
            | none => false) with
        | some flight => some (formatOpenSkyStateData flight ext now)
        | none => none

/-! ## Synthetic fallback generator (`getMockFlightData`) -/

/-- An entry of the literal `knownFlights` table. -/
structure KnownFlightRec where
  airline : String
  aircraft : String
  depAirport : String
  depIata : String
  depCity : String
  arrAirport : String
  arrIata : String
  arrCity : String
  status : String
  duration : String
deriving Repr, DecidableEq

/-- `knownFlights[flightNumber]`: the table holds `QFA104` and `QF104`, with
identical payloads. -/
def knownFlightsLookup (flightNumber : String) : Option KnownFlightRec :=
  if flightNumber = "QFA104" ∨ flightNumber = "QF104" then
    some ⟨"Qantas Airways", "Boeing 787-9",
          "Honolulu International Airport", "HNL", "Honolulu",
          "Sydney Kingsford Smith Airport", "SYD", "Sydney",
          "scheduled", "10h 30m"⟩
  else none

/-- `array[Math.floor(r * array.length)]` (in-range for every JS
`Math.random()` value; out-of-range oracle values fall back to the default). -/
def pickIdx (l : List (String × String × String)) (r : ℚ) : String × String × String :=
  (l.get? (jsFloor (r * l.length)).toNat).getD ("", "", "")

/-- `array[Math.floor(r * array.length)]` for the airline name pool. -/
def pickStr (l : List String) (r : ℚ) : String :=
  (l.get? (jsFloor (r * l.length)).toNat).getD ""

/-- `FlightTrackingService.getMockFlightData(flightNumber)` at time `now`. -/
def getMockFlightData (flightNumber : String) (ext : Ext) (now : ℚ) : FlightRecord :=
  match knownFlightsLookup flightNumber with
  | some flight =>
    let scheduledDeparture := now + 2 * 60 * 60 * 1000
    let scheduledArrival := scheduledDeparture + (105/10) * 60 * 60 * 1000
    { flightNumber := some flightNumber,
      airline := some flight.airline,
      aircraft := some flight.aircraft,
      departure := { airport := some flight.depAirport, iata := some flight.depIata,
                     scheduled := some scheduledDeparture, actual := none,
                     terminal := .jstr "2", gate := .jstr "15", delay := some 0 },
      arrival := { airport := some flight.arrAirport, iata := some flight.arrIata,
                   scheduled := some scheduledArrival, actual := none,
                   terminal := .jstr "1", gate := .jstr "8", delay := some 0 },
      status := flight.status,
      live := some false,
      source := "mock-accurate" }
  | none =>
    let airlines := ["Air India", "IndiGo", "SpiceJet", "Vistara", "GoAir"]
    let airports : List (String × String × String) := [
      ("Mumbai Airport", "BOM", "Mumbai"),
      ("Delhi Airport", "DEL", "Delhi"),
      ("Bangalore Airport", "BLR", "Bangalore"),
      ("Chennai Airport", "MAA", "Chennai"),
      ("Kolkata Airport", "CCU", "Kolkata")]
    let scheduledDeparture := now + ext.rmDepOffset * 2 * 60 * 60 * 1000
    let scheduledArrival := scheduledDeparture + (2 + ext.rmDuration * 3) * 60 * 60 * 1000
    let departureAirport := pickIdx airports ext.rmDepAirport
    let arrivalAirport := pickIdx airports ext.rmArrAirport
    { flightNumber := some flightNumber,
      airline := some (pickStr airlines ext.rmAirline),
      aircraft := some "A320",
      departure := { airport := some departureAirport.1, iata := some departureAirport.2.1,
                     scheduled := some scheduledDeparture, actual := none,
                     terminal := .jnum ((jsFloor (ext.rmDepTerminal * 3) + 1 : ℤ) : ℚ),
                     gate := .jnum ((jsFloor (ext.rmDepGate * 20) + 1 : ℤ) : ℚ),
                     delay := some (if (7/10 : ℚ) < ext.rmDepDelayP
                                    then ((jsFloor (ext.rmDepDelay * 30) : ℤ) : ℚ) else 0) },
      arrival := { airport := some arrivalAirport.1, iata := some arrivalAirport.2.1,
                   scheduled := some scheduledArrival, actual := none,
                   terminal := .jnum ((jsFloor (ext.rmArrTerminal * 3) + 1 : ℤ) : ℚ),
                   gate := .jnum ((jsFloor (ext.rmArrGate * 20) + 1 : ℤ) : ℚ),
                   delay := some (if (7/10 : ℚ) < ext.rmArrDelayP
                                  then ((jsFloor (ext.rmArrDelay * 30) : ℤ) : ℚ) else 0) },
      status := "scheduled",
      live := some false,
      source := "mock" }

/-! ## Arbitration / merge orchestrator (`getFlightInfo`) -/

/-- Per-lookup provider oracles and configuration. -/
structure Env where
  states : Nat → Option (List StateVector)
  avN : Nat → AvOutcome   -- AviationStack attempts for the normalized identifier
  avO : Nat → AvOutcome   -- AviationStack attempts for the original identifier
  apiKey : String

/-- `openSkyResult && openSkyResult.live` truthiness. -/
def liveHit : Option FlightRecord → Bool
  | some r => bTruthy r.live
  | none => false

/-- `FlightTrackingService.getFlightInfo(flightNumber)`.

Returns the flight record, the updated cache, the updated quota state, and a
flag recording whether the scheduled provider (AviationStack) was queried.
Total: the JS method wraps its body in `try/catch` and the only reachable
throw site (the undeclared `normalizedFlightNumber` in the hybrid branch) is
embedded as the catch branch it lands in. -/
def getFlightInfo (ext : Ext) (env : Env) (c : Cache) (u : QuotaState)
    (now : ℚ) (flightNumber : String) :
    FlightRecord × Cache × QuotaState × Bool :=
  let nr := normalizeFlightNumber flightNumber
  let hit1 := getCachedFlight c nr.original now
  match hit1.1 with
  | some cached => (cached, hit1.2, u, false)
  | none =>
    let hit2 := getCachedFlight hit1.2 nr.normalized now
    match hit2.1 with
    | some cached => (cached, hit2.2, u, false)
    | none =>
      let c2 := hit2.2
      -- 1. OpenSky Network first
      let openSkyResult := getFlightFromOpenSky env.states nr.normalized ext now
      -- steps 3 and 4: shared fallthrough once AviationStack yielded nothing
      let finish := fun (u' : QuotaState) (queried : Bool) =>
        match openSkyResult with
        | some osr =>
          (osr, cacheFlight (cacheFlight c2 nr.original osr now) nr.normalized osr now,
           u', queried)
        | none =>
          let mockData := getMockFlightData nr.normalized ext now
          (mockData,
           cacheFlight (cacheFlight c2 nr.original mockData now) nr.normalized mockData now,
           u', queried)
      if liveHit openSkyResult then
        match openSkyResult with
        | some osr =>
          (osr, cacheFlight (cacheFlight c2 nr.original osr now) nr.normalized osr now,
           u, false)
        | none => finish u false   -- unreachable: liveHit forces `some`
      else
        -- 2. AviationStack, within quota
        let canRes := canUseAviationStack env.apiKey ext.nextMonth u now
        if canRes.1 then
          let avr1 := getFlightFromAviationStack env.apiKey ext.nextMonth
            nr.normalized env.avN canRes.2 now
          let afterBoth : Option FlightRecord × QuotaState :=
            match avr1.1 with
            | none =>
              if nr.isIcao then
                let avr2 := getFlightFromAviationStack env.apiKey ext.nextMonth
                  nr.original env.avO avr1.2.1 now
                (avr2.1, avr2.2.1)
              else (none, avr1.2.1)
            | some a => (some a, avr1.2.1)
          match afterBoth.1 with
          | some aviationResult =>
            if liveHit openSkyResult then
              match openSkyResult with
              | some osr =>
                let hybridResult :=
                  { aviationResult with
                    status := osr.status,
                    live := osr.live,
                    position := osr.position,
                    source := "aviationstack-opensky-hybrid" }
                -- `this.cacheFlight(normalizedFlightNumber, hybridResult)` reads an
                -- undeclared variable; the ReferenceError lands in the outer catch,
                -- which builds mock data from the raw argument and caches it under
                -- the uppercased raw key.
                let _ := hybridResult
                let mockData := getMockFlightData flightNumber ext now
                (mockData, cacheFlight c2 (jsToUpper flightNumber) mockData now,
                 afterBoth.2, true)
              | none =>
                (aviationResult,
                 cacheFlight (cacheFlight c2 nr.original aviationResult now)
                   nr.normalized aviationResult now,
                 afterBoth.2, true)
            else
              (aviationResult,
               cacheFlight (cacheFlight c2 nr.original aviationResult now)
                 nr.normalized aviationResult now,
               afterBoth.2, true)
          | none => finish afterBoth.2 true
        else finish canRes.2 false

/-! ## Shared statement abbreviations and helper lemmas -/

/-- Both cache probes of `getFlightInfo` (original key, then normalized key)
miss. -/
def lookupMisses (c : Cache) (fn : String) (now : ℚ) : Prop :=
  (getCachedFlight c (normalizeFlightNumber fn).original now).1 = none ∧
  (getCachedFlight (getCachedFlight c (normalizeFlightNumber fn).original now).2
    (normalizeFlightNumber fn).normalized now).1 = none

/-- The cache state after both (missing) probes. -/
def cacheAfterMisses (c : Cache) (fn : String) (now : ℚ) : Cache :=
  (getCachedFlight (getCachedFlight c (normalizeFlightNumber fn).original now).2
    (normalizeFlightNumber fn).normalized now).2

theorem formatOpenSkyStateData_live (st : StateVector) (ext : Ext) (now : ℚ) :
    (formatOpenSkyStateData st ext now).live = some true := rfl

theorem formatOpenSkyStateData_source (st : StateVector) (ext : Ext) (now : ℚ) :
    (formatOpenSkyStateData st ext now).source = "opensky-enriched" := rfl

theorem formatAviationStackData_source (f : AvFlight) (now : ℚ) :
    (formatAviationStackData f now).source = "aviationstack" := rfl

/-- Any record the OpenSky adapter returns comes out of
`formatOpenSkyStateData`: it is live and tagged `opensky-enriched`. -/
theorem getFlightFromOpenSky_live (states : Nat → Option (List StateVector))
    (fn : String) (ext : Ext) (now : ℚ) (r : FlightRecord)
    (h : getFlightFromOpenSky states fn ext now = some r) :
    r.live = some true ∧ r.source = "opensky-enriched" := by
  unfold getFlightFromOpenSky at h
  simp only at h
  rcases h0 : scanStates (states 0) (matchesSearchTerm fn) with _ | f0
  case some =>
    rw [h0] at h
    injection h with h2
    subst h2
    exact ⟨rfl, rfl⟩
  case none =>
    rw [h0] at h
    rcases h1 : scanStates (states 1) (matchesSearchTerm (jsTake fn 3)) with _ | f1
    case some =>
      rw [h1] at h
      injection h with h2
      subst h2
      exact ⟨rfl, rfl⟩
    case none =>
      rw [h1] at h
      rcases h2s : scanStates (states 2) (matchesSearchTerm (String.mk (fn.toList.filter (fun ch => isUpperAZ ch || isDigit09 ch)))) with _ | f2
      case some =>
        rw [h2s] at h
        injection h with h2
        subst h2
        exact ⟨rfl, rfl⟩
      case none =>
        rw [h2s] at h
        rcases h3 : scanStates (states 3) (fun st =>
            match st.callsign with
            | some cs0 => let cs := jsTrim cs0; cs ≠ "" && jsStartsWith cs (jsToUpper (jsTake fn 2))
            | none => false) with _ | f3
        case some =>
          rw [h3] at h
          injection h with h2
          subst h2
          exact ⟨rfl, rfl⟩
        case none =>
          rw [h3] at h
          exact absurd h (by simp)

theorem avStep_found_source (apiKey : String) (nm : ℚ → ℚ) (now : ℚ)
    (o : AvOutcome) (u : QuotaState) (r : FlightRecord) (u' : QuotaState)
    (h : avStep apiKey nm now o u = .found r u') :
    r.source = "aviationstack" := by
  unfold avStep at h
  simp only at h
  by_cases hcan : (canUseAviationStack apiKey nm u now).1 = true
  · rw [if_pos hcan] at h
    cases o with
    | ok flights =>
      cases flights with
      | nil => simp at h
      | cons f fs =>
        simp only at h
        injection h with h1 h2
        subst h1
        exact formatAviationStackData_source _ _
    | err rl => simp at h
  · rw [if_neg hcan] at h
    simp at h

theorem avStep_err_not_found (apiKey : String) (nm : ℚ → ℚ) (now : ℚ)
    (b : Bool) (u : QuotaState) (r : FlightRecord) (u' : QuotaState) :
    avStep apiKey nm now (.err b) u ≠ .found r u' := by
  unfold avStep
  simp only
  split <;> simp
theorem avLoop_source (apiKey : String) (nm : ℚ → ℚ) (now : ℚ)
    (attempts : Nat → AvOutcome) :
    ∀ (vs : List SearchParams) (i : Nat) (u : QuotaState) (k : Nat) (a : FlightRecord),
      (avLoop apiKey nm now attempts vs i u k).1 = some a →
      a.source = "aviationstack" := by
  intro vs
  induction vs with
  | nil => intro i u k a h; exact absurd h (by simp [avLoop])
  | cons v rest ih =>
    intro i u k a h
    unfold avLoop at h
    cases hs : avStep apiKey nm now (attempts i) u with
    | stop u1 => rw [hs] at h; simp at h
    | found r1 u1 =>
      rw [hs] at h
      have hra : r1 = a := by simpa using h
      exact hra ▸ avStep_found_source _ _ _ _ _ _ _ hs
    | next u1 =>
      rw [hs] at h
      exact ih _ _ _ a h

theorem avLoop_err_none (apiKey : String) (nm : ℚ → ℚ) (now : ℚ)
    (attempts : Nat → AvOutcome) (hatt : ∀ i, attempts i = .err false) :
    ∀ (vs : List SearchParams) (i : Nat) (u : QuotaState) (k : Nat),
      (avLoop apiKey nm now attempts vs i u k).1 = none := by
  intro vs
  induction vs with
  | nil => intro i u k; rfl
  | cons v rest ih =>
    intro i u k
    unfold avLoop
    cases hs : avStep apiKey nm now (attempts i) u with
    | stop u1 => rfl
    | found r1 u1 =>
      rw [hatt i] at hs
      exact absurd hs (avStep_err_not_found _ _ _ _ _ _ _)
    | next u1 => exact ih _ _ _

/-- The mock generator's provenance tag is always one of the two mock tags. -/
theorem getMockFlightData_source (fn : String) (ext : Ext) (now : ℚ) :
    (getMockFlightData fn ext now).source = "mock-accurate" ∨
    (getMockFlightData fn ext now).source = "mock" := by
  unfold getMockFlightData
  cases knownFlightsLookup fn <;> simp

/-- An unknown identifier gets the generic mock record, tagged `mock`. -/
theorem getMockFlightData_source_unknown (fn : String) (ext : Ext) (now : ℚ)
    (h : knownFlightsLookup fn = none) :
    (getMockFlightData fn ext now).source = "mock" := by
  unfold getMockFlightData
  rw [h]

/-! ## Concrete fixtures for witnesses and counterexamples -/

/-- A concrete oracle environment (`dist` constantly `0`, all random draws
`0`, next-month oracle constantly `999`). -/
def extW : Ext :=
  { dist := fun _ _ _ _ => 0
    nextMonth := fun _ => 999
    rAircraft := 0
    rEstTime := 0
    rDepTerminal := 0
    rDepGate := 0
    rArrTerminal := 0
    rArrGate := 0
    rmDepOffset := 0
    rmDuration := 0
    rmDepAirport := 0
    rmArrAirport := 0
    rmAirline := 0
    rmDepTerminal := 0
    rmDepGate := 0
    rmDepDelayP := 0
    rmDepDelay := 0
    rmArrTerminal := 0
    rmArrGate := 0
    rmArrDelayP := 0
    rmArrDelay := 0 }

/-- The next-month oracle of `extW`, standalone. -/
def nmW : ℚ → ℚ := fun _ => 999

/-- Both providers stubbed to fail: every OpenSky request errors, every
AviationStack request throws a (non-rate-limit) network error. -/
def envFailW : Env :=
  { states := fun _ => none
    avN := fun _ => .err false
    avO := fun _ => .err false
    apiKey := "key" }

/-- A live OpenSky state vector whose callsign matches `AI101`. -/
def stLiveW : StateVector :=
  { icao24 := "800abc"
    callsign := some "AI101"
    originCountry := some "India"
    timePosition := some 1000
    lastContact := some 1000
    longitude := some (7287/100)
    latitude := some (1909/100)
    baroAltitude := some 10000
    onGround := false
    velocity := some 230
    trueTrack := some 90
    verticalRate := some 0
    geoAltitude := some 10100
    squawk := some "1234" }

/-- A scheduled AviationStack payload for the same identifier. -/
def avFlightW : AvFlight :=
  { flightIata := some "AI101"
    airlineName := some "Air India"
    departure := some { airport := some "Indira Gandhi International Airport"
                        iata := some "DEL"
                        scheduled := some 100
                        terminal := some "3"
                        gate := some "12" }
    arrival := some { airport := some "Chhatrapati Shivaji Maharaj International Airport"
                      iata := some "BOM"
                      scheduled := some 200 } }

/-- Provider A returns a live match; Provider B would also return data. -/
def envHybridW : Env :=
  { states := fun _ => some [stLiveW]
    avN := fun _ => .ok [avFlightW]
    avO := fun _ => .err false
    apiKey := "key" }

/-- Provider A returns a live match; Provider B stubbed to fail. -/
def envLiveW : Env :=
  { states := fun _ => some [stLiveW]
    avN := fun _ => .err false
    avO := fun _ => .err false
    apiKey := "key" }

/-- A state vector with no position report (`longitude` null) but an active
callsign `ZZ123`. -/
def stNoPosW : StateVector :=
  { icao24 := "800abc"
    callsign := some "ZZ123"
    originCountry := none
    timePosition := none
    lastContact := none
    longitude := none
    latitude := some 10
    baroAltitude := none
    onGround := false
    velocity := none
    trueTrack := none
    verticalRate := none
    geoAltitude := none
    squawk := none }

/-- Provider A finds `stNoPosW`; Provider B stubbed to fail. -/
def envNoPosW : Env :=
  { states := fun _ => some [stNoPosW]
    avN := fun _ => .err false
    avO := fun _ => .err false
    apiKey := "key" }

/-! ## Association-list lemmas for the cache `Map` -/

theorem mapGet_mapSet_self (c : Cache) (k : String) (e : CacheEntry) :
    mapGet (mapSet c k e) k = some e := by
  induction c with
  | nil => simp [mapSet, mapGet, List.find?]
  | cons p rest ih =>
    obtain ⟨k1, e1⟩ := p
    by_cases h : k1 = k
    · subst h; simp [mapSet, mapGet, List.find?]
    · simp only [mapSet, if_neg h]
      simpa [mapGet, List.find?, h] using ih

theorem mapGet_cons_ne (t : Cache) (k1 k : String) (e1 : CacheEntry)
    (h : k1 ≠ k) : mapGet ((k1, e1) :: t) k = mapGet t k := by
  simp [mapGet, List.find?, h]

theorem mapGet_eq_none_of_not_mem (c : Cache) (k : String)
    (h : k ∉ c.map Prod.fst) : mapGet c k = none := by
  induction c with
  | nil => rfl
  | cons p rest ih =>
    obtain ⟨k1, e1⟩ := p
    simp only [List.map_cons, List.mem_cons] at h
    push_neg at h
    rw [mapGet_cons_ne _ _ _ _ (Ne.symm h.1)]
    exact ih h.2

theorem mapGet_mapDelete_mapSet (c : Cache) (k : String) (e : CacheEntry)
    (hnd : (c.map Prod.fst).Nodup) :
    mapGet (mapDelete (mapSet c k e) k) k = none := by
  induction c with
  | nil => simp [mapSet, mapDelete, mapGet]
  | cons p rest ih =>
    obtain ⟨k1, e1⟩ := p
    simp only [List.map_cons, List.nodup_cons] at hnd
    by_cases h : k1 = k
    · subst h
      simp only [mapSet, if_pos rfl, mapDelete, if_pos rfl]
      exact mapGet_eq_none_of_not_mem rest k1 hnd.1
    · simp only [mapSet, if_neg h, mapDelete, if_neg h]
      rw [mapGet_cons_ne _ _ _ _ h]
      exact ih hnd.2

/-! ## Claim theorems -/

/-- C6: a record cached at `t0` is returned by a lookup at every time
strictly before `t0 + 5` minutes and treated as absent from `t0 + 5` minutes
on, the lookup itself evicting the expired entry (no background sweep). -/
theorem cache_ttl_boundary (c : Cache) (fn : String) (d : FlightRecord) (t0 t : ℚ)
    (hnd : (c.map Prod.fst).Nodup) :
    (t - t0 < 5 * 60 * 1000 →
      (getCachedFlight (cacheFlight c fn d t0) fn t).1 = some d) ∧
    (5 * 60 * 1000 ≤ t - t0 →
      (getCachedFlight (cacheFlight c fn d t0) fn t).1 = none ∧
      mapGet (getCachedFlight (cacheFlight c fn d t0) fn t).2
        ("flight:" ++ jsToUpper fn) = none) := by
  constructor
  · intro hlt
    simp only [getCachedFlight, cacheFlight, mapGet_mapSet_self]
    simp [cacheTTL, hlt]
  · intro hge
    simp only [getCachedFlight, cacheFlight, mapGet_mapSet_self, cacheTTL]
    rw [if_neg (by push_neg; linarith)]
    exact ⟨rfl, mapGet_mapDelete_mapSet c _ _ hnd⟩

/-- C6 witness: concrete lookups at 4 m 59 s and 5 m 01 s after insertion. -/
theorem cache_ttl_boundary_witness :
    (getCachedFlight (cacheFlight [] "AI101" {} 0) "AI101" 299000).1 =
      some ({} : FlightRecord) ∧
    (getCachedFlight (cacheFlight [] "AI101" {} 0) "AI101" 301000).1 = none :=
  ⟨(cache_ttl_boundary [] "AI101" {} 0 299000 (by simp)).1 (by norm_num),
   ((cache_ttl_boundary [] "AI101" {} 0 301000 (by simp)).2 (by norm_num)).1⟩

/-- C4: at `count = limit` with `resetAt` in the past, `canUseAviationStack`
returns false and performs no rollover reset (the limit check precedes the
rollover check), contrary to the documented reset-first behavior; at
`count = limit - 1` it does reset the counter and return true. -/
theorem canUseAviationStack_limit_check_first :
    canUseAviationStack "key" nmW ⟨100, 100, some 0⟩ 10 =
      (false, ⟨100, 100, some 0⟩) ∧
    canUseAviationStack "key" nmW ⟨99, 100, some 0⟩ 10 =
      (true, ⟨0, 100, some 999⟩) := ⟨rfl, rfl⟩

/-- C5 counterexample: eight attempts are issued (all failing with network
errors) yet the quota count is unchanged, so an issued attempt does not
always consume a quota unit. -/
theorem quota_uncharged_on_errors :
    getFlightFromAviationStack "key" nmW "AI101" (fun _ => .err false)
      ⟨0, 100, none⟩ 0 = (none, ⟨0, 100, none⟩, 8) := rfl

/-- C5 amended: per attempt, a received response (match or empty) consumes
exactly one quota unit; an errored attempt consumes none, except a
rate-limit/payment error, which sets `count = limit`. -/
theorem avStep_quota_accounting (apiKey : String) (nm : ℚ → ℚ) (now : ℚ)
    (u : QuotaState) (hcan : (canUseAviationStack apiKey nm u now).1 = true) :
    (∀ f fs, avStep apiKey nm now (.ok (f :: fs)) u =
      .found (formatAviationStackData f now)
        { (canUseAviationStack apiKey nm u now).2 with
          count := (canUseAviationStack apiKey nm u now).2.count + 1 }) ∧
    (avStep apiKey nm now (.ok []) u =
      .next { (canUseAviationStack apiKey nm u now).2 with
              count := (canUseAviationStack apiKey nm u now).2.count + 1 }) ∧
    (avStep apiKey nm now (.err false) u =
      .next (canUseAviationStack apiKey nm u now).2) ∧
    (avStep apiKey nm now (.err true) u =
      .next { (canUseAviationStack apiKey nm u now).2 with
              count := (canUseAviationStack apiKey nm u now).2.limit }) := by
  refine ⟨fun f fs => ?_, ?_, ?_, ?_⟩ <;>
    · unfold avStep
      simp [hcan, incrementAviationStackUsage]

/-- C5 amended, witness: an errored attempt leaves the counter unchanged. -/
theorem avStep_quota_accounting_witness :
    avStep "key" nmW 0 (.err false) ⟨0, 100, none⟩ = .next ⟨0, 100, none⟩ :=
  (avStep_quota_accounting "key" nmW 0 ⟨0, 100, none⟩ rfl).2.2.1

/-- C7 counterexample: a cached token whose stored `expiresAt` is `now + 4`
minutes is reused as-is — no fresh exchange, no state change — even though
the exchange oracle would deliver a fresh token. -/
theorem token_reused_inside_buffer :
    getOpenSkyAccessToken true (.exOk (some "fresh-token") (some 1800))
      ⟨some "cached-token", some 1240000⟩ 1000000 =
      (some "cached-token", ⟨some "cached-token", some 1240000⟩) := rfl

/-- C7 amended: a cached token is reused exactly while `now` is before the
stored `expiresAt` (the 5-minute buffer is subtracted when the token is
stored: `expiresAt = now + (expires_in − 300) s`); once `now ≥ expiresAt` a
fresh exchange happens when credentials exist. -/
theorem getOpenSkyAccessToken_reuse_boundary
    (creds : Bool) (ex : TokenExchange) (tok : String) (e now : ℚ)
    (htok : tok ≠ "") (he : e ≠ 0) :
    (now < e →
      getOpenSkyAccessToken creds ex ⟨some tok, some e⟩ now =
        (some tok, ⟨some tok, some e⟩)) ∧
    (e ≤ now → ∀ ntok nexp, ex = .exOk (some ntok) (some nexp) →
      ntok ≠ "" → nexp ≠ 0 →
      getOpenSkyAccessToken creds ex ⟨some tok, some e⟩ now =
        (if creds then (some ntok, ⟨some ntok, some (now + (nexp - 300) * 1000)⟩)
         else (none, ⟨some tok, some e⟩))) := by
  constructor
  · intro hlt
    unfold getOpenSkyAccessToken
    rw [if_pos ⟨by simp [sTruthy, htok], by simp [qTruthy, he], by simp [qLtO, hlt]⟩]
  · intro hge ntok nexp hex hntok hnexp
    subst hex
    unfold getOpenSkyAccessToken
    rw [if_neg (by simp [qLtO]; intro _ _; linarith)]
    cases creds with
    | false => simp
    | true => simp [sTruthy, hntok, qTruthy, hnexp]

/-- C7 amended, witness: once `now ≥` the stored expiry, the fresh token is
stored with the 5-minute buffer subtracted from the declared lifetime. -/
theorem getOpenSkyAccessToken_reuse_boundary_witness :
    getOpenSkyAccessToken true (.exOk (some "n") (some 1800)) ⟨some "t", some 5⟩ 10 =
      (some "n", ⟨some "n", some (10 + (1800 - 300) * 1000)⟩) := by
  have h := (getOpenSkyAccessToken_reuse_boundary true
    (.exOk (some "n") (some 1800)) "t" 5 10 (by decide) (by decide)).2
    (by norm_num) "n" 1800 rfl (by decide) (by norm_num)
  simpa using h

/-- C8 counterexample: `AIC1A` has a known ICAO prefix but a non-numeric
remainder `1A`, yet the prefix is still replaced: the code only requires the
fourth character to be a digit, not the entire remainder to be numeric. -/
theorem normalize_nonnumeric_remainder :
    normalizeFlightNumber "AIC1A" = ⟨"AIC1A", "AI1A", true⟩ ∧
    (jsDrop "AIC1A" 3).toList.all isDigit09 = false := ⟨rfl, rfl⟩

/-- C8 amended: the prefix is replaced exactly when the identifier
(uppercased, trimmed) is at least 4 characters, starts with three `A–Z`
letters followed by a digit, and its 3-letter prefix resolves in the airline
registry (exact key, else 2-letter prefix, else 3-letter prefix) to an
airline with a nonempty IATA code; in every other case the identity mapping
is returned, and the mapping never fails. -/
theorem normalizeFlightNumber_characterization (s : String) :
    (normalizeFlightNumber s).original = jsTrim (jsToUpper s) ∧
    (∀ a, 4 ≤ jsLen (jsTrim (jsToUpper s)) →
      icaoShape (jsTrim (jsToUpper s)) = true →
      getAirline (some (jsTake (jsTrim (jsToUpper s)) 3)) = some a → a.iata ≠ "" →
      normalizeFlightNumber s =
        ⟨jsTrim (jsToUpper s), a.iata ++ jsDrop (jsTrim (jsToUpper s)) 3, true⟩) ∧
    (¬(4 ≤ jsLen (jsTrim (jsToUpper s)) ∧
        icaoShape (jsTrim (jsToUpper s)) = true ∧
        ∃ a, getAirline (some (jsTake (jsTrim (jsToUpper s)) 3)) = some a ∧
          a.iata ≠ "") →
      normalizeFlightNumber s =
        ⟨jsTrim (jsToUpper s), jsTrim (jsToUpper s), false⟩) := by
  refine ⟨?_, ?_, ?_⟩
  · simp only [normalizeFlightNumber]
    split
    · split <;> (try split) <;> rfl
    · rfl
  · intro a hlen hshape hair hiata
    simp only [normalizeFlightNumber]
    rw [if_pos ⟨hlen, hshape⟩, hair]
    simp [hiata]
  · intro hneg
    simp only [normalizeFlightNumber]
    by_cases hc : 4 ≤ jsLen (jsTrim (jsToUpper s)) ∧
        icaoShape (jsTrim (jsToUpper s)) = true
    · rw [if_pos hc]
      cases hair : getAirline (some (jsTake (jsTrim (jsToUpper s)) 3)) with
      | none => rfl
      | some a =>
        by_cases hi : a.iata ≠ ""
        · exact absurd ⟨hc.1, hc.2, a, hair, hi⟩ hneg
        · simp only [Option.some.injEq]
          rw [if_neg hi]
    · rw [if_neg hc]

/-- C8 amended, witness: `AIC101` is converted to `AI101` via the registry. -/
theorem normalizeFlightNumber_characterization_witness :
    normalizeFlightNumber "AIC101" = ⟨"AIC101", "AI101", true⟩ := by
  have h := (normalizeFlightNumber_characterization "AIC101").2.1
    ⟨"AI", "AIC", "Air India", "India"⟩ (by decide) (by decide) (by decide) (by decide)
  exact h.trans (by decide)

/-- C9 counterexample: with the same `icao24` and callsign, two different
random draws yield different aircraft records for a wide-body carrier, so
the fallback estimate is not deterministic. -/
theorem getAircraft_nondeterministic :
    getAircraft "896148" (some "EK201") 0 ≠
      getAircraft "896148" (some "EK201") (9/10) := by decide

/-- C9 amended: the estimate is independent of the random draw whenever the
callsign is absent/empty or its 2-letter prefix is not one of the wide-body
carriers; only for those carriers does the draw select the model. -/
theorem getAircraft_deterministic_off_widebody
    (icao24 : String) (callsign : Option String) (r1 r2 : ℚ)
    (h : ∀ cs, callsign = some cs → cs ≠ "" →
      jsToUpper (jsTake cs 2) ∉
        (["EK", "QR", "EY", "SQ", "LH", "BA", "AF", "QF", "AI"] : List String)) :
    getAircraft icao24 callsign r1 = getAircraft icao24 callsign r2 := by
  cases callsign with
  | none => rfl
  | some cs =>
    by_cases hcs : cs = ""
    · simp [getAircraft, hcs]
    · have hw := h cs rfl hcs
      simp [getAircraft, hcs, estimateAircraftFromCallsign, hw]

/-- C9 amended, witness: a non-wide-body callsign gives the same record for
two different draws. -/
theorem getAircraft_deterministic_off_widebody_witness :
    getAircraft "800abc" (some "6E123") 0 = getAircraft "800abc" (some "6E123") (9/10) :=
  getAircraft_deterministic_off_widebody "800abc" (some "6E123") 0 (9/10)
    (by intro cs hcs hne
        injection hcs with hh
        rw [← hh]
        decide)

/-- C3 counterexample: an OpenSky state vector with a null longitude yields —
end-to-end through `getFlightInfo` — a record with `live = true` and no
`position`, refuting the unconditional invariant. -/
theorem live_without_position :
    (getFlightInfo extW envNoPosW [] ⟨0, 100, none⟩ 0 "ZZ123").1.live = some true ∧
    (getFlightInfo extW envNoPosW [] ⟨0, 100, none⟩ 0 "ZZ123").1.position = none :=
  ⟨rfl, rfl⟩

/-- C3 amended: OpenSky-built records always have `live = true` and carry a
`position` exactly when the state vector has both coordinates; AviationStack
records copy the provider's live flag and never set `position`; mock records
have `live = false` and no `position`. -/
theorem live_position_characterization :
    (∀ st ext now, (formatOpenSkyStateData st ext now).live = some true ∧
      (formatOpenSkyStateData st ext now).position.isSome =
        (st.longitude.isSome && st.latitude.isSome)) ∧
    (∀ f now, (formatAviationStackData f now).position = none ∧
      (formatAviationStackData f now).live = f.live) ∧
    (∀ fn ext now, (getMockFlightData fn ext now).live = some false ∧
      (getMockFlightData fn ext now).position = none) := by
  refine ⟨fun st ext now => ⟨formatOpenSkyStateData_live st ext now, ?_⟩,
          fun f now => ⟨rfl, rfl⟩, fun fn ext now => ?_⟩
  · obtain ⟨i24, cs, oc, tp, lc, lon, lat, ba, og, vel, tt, vr, ga, sq⟩ := st
    cases lon <;> cases lat <;> rfl
  · unfold getMockFlightData
    cases knownFlightsLookup fn <;> exact ⟨rfl, rfl⟩

/-- All-failing attempts make the AviationStack adapter return no record. -/
theorem getFlightFromAviationStack_err_none (apiKey : String) (nm : ℚ → ℚ)
    (fn : String) (attempts : Nat → AvOutcome) (u : QuotaState) (now : ℚ)
    (hatt : ∀ i, attempts i = .err false) :
    (getFlightFromAviationStack apiKey nm fn attempts u now).1 = none :=
  avLoop_err_none _ _ _ _ hatt _ _ _ _

/-- Any record the AviationStack adapter returns is tagged `aviationstack`. -/
theorem getFlightFromAviationStack_source (apiKey : String) (nm : ℚ → ℚ)
    (fn : String) (attempts : Nat → AvOutcome) (u : QuotaState) (now : ℚ)
    (a : FlightRecord)
    (h : (getFlightFromAviationStack apiKey nm fn attempts u now).1 = some a) :
    a.source = "aviationstack" :=
  avLoop_source _ _ _ _ _ _ _ _ _ h

/-- C1: `getFlightInfo` is total in this embedding (the source wraps its body
in `try/catch`, so it always returns some record), and when the cache misses,
the live provider yields nothing, every scheduled-provider attempt fails, and
the identifier is not in the literal known-flight table, the returned record
is a synthesized one whose `source` is `"mock"`. -/
theorem getFlightInfo_mock_on_failure (ext : Ext) (env : Env) (c : Cache)
    (u : QuotaState) (now : ℚ) (fn : String)
    (hmiss : lookupMisses c fn now)
    (hos : getFlightFromOpenSky env.states (normalizeFlightNumber fn).normalized
      ext now = none)
    (havN : ∀ i, env.avN i = .err false)
    (havO : ∀ i, env.avO i = .err false)
    (hkn : knownFlightsLookup (normalizeFlightNumber fn).normalized = none) :
    (getFlightInfo ext env c u now fn).1.source = "mock" := by
  obtain ⟨h1, h2⟩ := hmiss
  have havN2 : ∀ u2, (getFlightFromAviationStack env.apiKey ext.nextMonth
      (normalizeFlightNumber fn).normalized env.avN u2 now).1 = none :=
    fun u2 => getFlightFromAviationStack_err_none _ _ _ _ _ _ havN
  have havO2 : ∀ u2, (getFlightFromAviationStack env.apiKey ext.nextMonth
      (normalizeFlightNumber fn).original env.avO u2 now).1 = none :=
    fun u2 => getFlightFromAviationStack_err_none _ _ _ _ _ _ havO
  have hmock := getMockFlightData_source_unknown
    (normalizeFlightNumber fn).normalized ext now hkn
  simp only [getFlightInfo, h1, h2, hos, liveHit, havN2, havO2]
  split <;> (try split) <;> simp_all [apply_ite]

/-- C10: every OpenSky-built record has `live = true` unconditionally; hence
on a cache miss, whenever the live provider finds a matching state vector,
`getFlightInfo` caches that record under both identifier forms and returns it
with the quota untouched and the scheduled provider never queried; and on
every path the produced record's `source` is never the hybrid tag
`"aviationstack-opensky-hybrid"` — the merge branch is unreachable. -/
theorem no_hybrid_source :
    (∀ st ext now, (formatOpenSkyStateData st ext now).live = some true) ∧
    (∀ ext env c u now fn, lookupMisses c fn now →
      ((∀ r, getFlightFromOpenSky env.states (normalizeFlightNumber fn).normalized
          ext now = some r →
        getFlightInfo ext env c u now fn =
          (r, cacheFlight (cacheFlight (cacheAfterMisses c fn now)
              (normalizeFlightNumber fn).original r now)
            (normalizeFlightNumber fn).normalized r now, u, false)) ∧
       (getFlightInfo ext env c u now fn).1.source ≠ "aviationstack-opensky-hybrid")) := by
  refine ⟨formatOpenSkyStateData_live, ?_⟩
  intro ext env c u now fn hmiss
  obtain ⟨h1, h2⟩ := hmiss
  have hmain : ∀ r, getFlightFromOpenSky env.states
      (normalizeFlightNumber fn).normalized ext now = some r →
      getFlightInfo ext env c u now fn =
        (r, cacheFlight (cacheFlight (cacheAfterMisses c fn now)
            (normalizeFlightNumber fn).original r now)
          (normalizeFlightNumber fn).normalized r now, u, false) := by
    intro r hr
    have hl := (getFlightFromOpenSky_live _ _ _ _ _ hr).1
    simp only [getFlightInfo, h1, h2, hr, liveHit, hl, bTruthy, cacheAfterMisses, if_true]
  refine ⟨hmain, ?_⟩
  cases hos : getFlightFromOpenSky env.states (normalizeFlightNumber fn).normalized
      ext now with
  | some r =>
    rw [hmain r hos]
    have hsrc := (getFlightFromOpenSky_live _ _ _ _ _ hos).2
    simp [hsrc]
  | none =>
    have hmock := getMockFlightData_source (normalizeFlightNumber fn).normalized ext now
    simp only [getFlightInfo, h1, h2, hos, liveHit]
    generalize hA : getFlightFromAviationStack env.apiKey ext.nextMonth
        (normalizeFlightNumber fn).normalized env.avN
        (canUseAviationStack env.apiKey ext.nextMonth u now).2 now = resA
    obtain ⟨ra, ua, ka⟩ := resA
    have hAsrc : ∀ a, ra = some a → a.source = "aviationstack" := by
      intro a haa
      exact getFlightFromAviationStack_source _ _ _ _ _ _ _
        (by rw [hA, haa])
    simp only
    generalize hB : getFlightFromAviationStack env.apiKey ext.nextMonth
        (normalizeFlightNumber fn).original env.avO ua now = resB
    obtain ⟨rb, ub, kb⟩ := resB
    have hBsrc : ∀ a, rb = some a → a.source = "aviationstack" := by
      intro a haa
      exact getFlightFromAviationStack_source _ _ _ _ _ _ _
        (by rw [hB, haa])
    have hmockRaw := getMockFlightData_source fn ext now
    split
    · rcases hmock with hm | hm <;> simp [hm]
    · split
      · cases ra with
        | some a =>
          dsimp only
          simp [hAsrc a rfl]
        | none =>
          dsimp only
          cases hic : (normalizeFlightNumber fn).isIcao with
          | true =>
            cases rb with
            | some b => simp [hBsrc b rfl]
            | none => rcases hmock with hm | hm <;> simp [hm]
          | false => rcases hmock with hm | hm <;> simp [hm]
      · rcases hmock with hm | hm <;> simp [hm]

/-- C2: with Provider A returning a live match for `AI101` and Provider B
stubbed to return scheduled data for the same identifier, `getFlightInfo`
returns A's record tagged `opensky-enriched` and never queries B; no merged
hybrid record is produced. (The merge branch in the source is dead code: it
is guarded by the same condition that already returned, and it dereferences
the undeclared variable `normalizedFlightNumber`.) -/
theorem getFlightInfo_no_merge :
    (getFlightInfo extW envHybridW [] ⟨0, 100, none⟩ 0 "AI101").1 =
      formatOpenSkyStateData stLiveW extW 0 ∧
    (getFlightInfo extW envHybridW [] ⟨0, 100, none⟩ 0 "AI101").1.source =
      "opensky-enriched" ∧
    (getFlightInfo extW envHybridW [] ⟨0, 100, none⟩ 0 "AI101").2.2.2 = false :=
  ⟨rfl, rfl, rfl⟩

/-- C1 witness: with both providers stubbed to fail, `ZZ9999` resolves to a
mock record. -/
theorem getFlightInfo_mock_on_failure_witness :
    (getFlightInfo extW envFailW [] ⟨0, 100, none⟩ 0 "ZZ9999").1.source = "mock" :=
  getFlightInfo_mock_on_failure extW envFailW [] ⟨0, 100, none⟩ 0 "ZZ9999"
    ⟨rfl, rfl⟩ rfl (fun _ => rfl) (fun _ => rfl) rfl

/-- C10 witness: a live `AI101` match is returned immediately and cached
under both keys, with the scheduled provider never queried. -/
theorem no_hybrid_source_witness :
    getFlightInfo extW envLiveW [] ⟨0, 100, none⟩ 0 "AI101" =
      (formatOpenSkyStateData stLiveW extW 0,
       cacheFlight (cacheFlight (cacheAfterMisses [] "AI101" 0)
           (normalizeFlightNumber "AI101").original
           (formatOpenSkyStateData stLiveW extW 0) 0)
         (normalizeFlightNumber "AI101").normalized
         (formatOpenSkyStateData stLiveW extW 0) 0,
       ⟨0, 100, none⟩, false) :=
  ((no_hybrid_source.2 extW envLiveW [] ⟨0, 100, none⟩ 0 "AI101" ⟨rfl, rfl⟩).1
    (formatOpenSkyStateData stLiveW extW 0) rfl)

end HaloEngine
